import Mathlib

/-!
Shallow embedding of `stats_display` (src/main.cpp), a Windows desktop
widget that polls CPU, RAM and NVIDIA-GPU statistics and renders them as
text.  Machine integers are modelled as `Nat` reduced mod `2^64` (or
`2^32` for `unsigned long`) exactly where the C++ arithmetic wraps;
`double` arithmetic is modelled over `ℚ`; C++ exceptions are modelled with
`Except`; the Win32 environment (system-time snapshots, registry, file
system, PATH, captured child-process output) is passed in explicitly.
-/

namespace StatsDisplay

/-- Reduction mod 2^64, the width of `unsigned long long`. -/
def u64 (n : ℕ) : ℕ := n % 2 ^ 64

/-- Wrapping subtraction of two `unsigned long long` values
(`current - previous` in the source wraps mod 2^64). -/
def sub64 (a b : ℕ) : ℕ := (2 ^ 64 + u64 a - u64 b) % 2 ^ 64

/-- Wrapping addition of two `unsigned long long` values. -/
def add64 (a b : ℕ) : ℕ := (a + b) % 2 ^ 64

/-- Embedding of `FileTimeToInt64`: packs the two 32-bit halves of a
`FILETIME` into one 64-bit integer. -/
def FileTimeToInt64 (dwHighDateTime dwLowDateTime : ℕ) : ℕ :=
  (dwHighDateTime % 2 ^ 32) * 2 ^ 32 + dwLowDateTime % 2 ^ 32

/-- One successful `GetSystemTimes` result, already converted by
`FileTimeToInt64` (each value is a 64-bit tick count). -/
structure Snapshot where
  idle : ℕ
  kernel : ℕ
  user : ℕ
deriving Repr, DecidableEq

/-- The static state of `getCurrentCpuUsage`: the three baseline counters
`previousIdleTime`, `previousKernelTime`, `previousUserTime` and the
`firstCall` flag. -/
structure CpuState where
  previousIdleTime : ℕ
  previousKernelTime : ℕ
  previousUserTime : ℕ
  firstCall : Bool
deriving Repr, DecidableEq

/-- The `idleTimeDelta` computed on a non-first call. -/
def idleTimeDelta (s : Snapshot) (st : CpuState) : ℕ :=
  sub64 s.idle st.previousIdleTime

/-- The `kernelTimeDelta` computed on a non-first call. -/
def kernelTimeDelta (s : Snapshot) (st : CpuState) : ℕ :=
  sub64 s.kernel st.previousKernelTime

/-- The `userTimeDelta` computed on a non-first call. -/
def userTimeDelta (s : Snapshot) (st : CpuState) : ℕ :=
  sub64 s.user st.previousUserTime

/-- The `totalActivityTime = kernelTimeDelta + userTimeDelta` sum
(`unsigned long long` addition wraps). -/
def totalActivityTime (s : Snapshot) (st : CpuState) : ℕ :=
  add64 (kernelTimeDelta s st) (userTimeDelta s st)

/-- Embedding of `getCurrentCpuUsage`.  The argument is the result of
`GetSystemTimes` (`none` when the API call fails).  Returns the value the
C++ function returns together with the static state after the call.  On
API failure the function returns `-1.0` at once, touching no state; on the
very first call it installs the baseline and returns `0.0`; otherwise it
computes the deltas, updates the baseline, and returns
`(1 - idleTimeDelta / totalActivityTime) * 100` guarded against a zero
denominator. -/
def getCurrentCpuUsage (snap : Option Snapshot) (st : CpuState) :
    ℚ × CpuState :=
  match snap with
  | none => (-1, st)
  | some s =>
    if st.firstCall then
      (0, ⟨s.idle, s.kernel, s.user, false⟩)
    else
      let st' : CpuState := ⟨s.idle, s.kernel, s.user, false⟩
      if totalActivityTime s st = 0 then
        (0, st')
      else
        ((1 - (idleTimeDelta s st : ℚ) / (totalActivityTime s st : ℚ)) * 100,
          st')

/-- Embedding of `getCurrentRamUsage`: `usedPhysMem` is the wrapping
`ULONGLONG` difference `ullTotalPhys - ullAvailPhys`, converted to
gigabytes by dividing by `1024^3` in `double` arithmetic. -/
def getCurrentRamUsage (ullTotalPhys ullAvailPhys : ℕ) : ℚ :=
  (sub64 ullTotalPhys ullAvailPhys : ℚ) / (1024 * 1024 * 1024)

/-- An XML element as pugixml exposes it to this program: a tag name, the
value of its PCDATA content (what `.text().get()` returns, `""` when there
is none), and its child elements. -/
inductive XmlNode where
  | mk (tagName : String) (pcdata : String) (children : List XmlNode)
deriving Repr

/-- Tag name of an element. -/
def XmlNode.tagName : XmlNode → String
  | .mk n _ _ => n

/-- PCDATA content of an element (`.text().get()`; `""` when absent). -/
def XmlNode.pcdata : XmlNode → String
  | .mk _ t _ => t

/-- Child elements of an element. -/
def XmlNode.children : XmlNode → List XmlNode
  | .mk _ _ c => c

/-- pugixml node handles may be null; a handle is `Option XmlNode`.
`child(name)` on a handle: the first child with the given name, null when
the handle is null or no such child exists. -/
def childOf (h : Option XmlNode) (name : String) : Option XmlNode :=
  h.bind fun n => n.children.find? fun c => c.tagName == name

/-- Value of `.text().get()` on a possibly-null handle: pugixml returns
`""` for a null handle. -/
def textOf (h : Option XmlNode) : String :=
  ((h.map XmlNode.pcdata).getD "")

/-- A parsed `pugi::xml_document` is its list of top-level elements;
`doc.child(name)` searches them. -/
def docChild (doc : List XmlNode) (name : String) : Option XmlNode :=
  doc.find? fun c => c.tagName == name

/-- Embedding of `std::stoul(s)` (MSVC: `unsigned long` is 32 bits):
skip leading whitespace, accept one optional sign, then base-10 digits.
No digits at all raises `std::invalid_argument`; a magnitude above
`ULONG_MAX` raises `std::out_of_range`; a negative input wraps modulo
`2^32`.  Exceptions are modelled as `Except.error ()`. -/
def stoul (s : String) : Except Unit ℕ :=
  let t := s.data.dropWhile Char.isWhitespace
  let (neg, t) :=
    match t with
    | '-' :: r => (true, r)
    | '+' :: r => (false, r)
    | r => (false, r)
  let digits := t.takeWhile Char.isDigit
  if digits.isEmpty then
    .error ()
  else
    let v := digits.foldl (fun a c => a * 10 + (c.toNat - 48)) 0
    if v > 2 ^ 32 - 1 then
      .error ()
    else if neg then
      .ok ((2 ^ 32 - v) % 2 ^ 32)
    else
      .ok v

instance {ε α : Type} [DecidableEq ε] [DecidableEq α] :
    DecidableEq (Except ε α) := fun a b =>
  match a, b with
  | .ok x, .ok y => decidable_of_iff (x = y) (by simp)
  | .error x, .error y => decidable_of_iff (x = y) (by simp)
  | .ok _, .error _ => .isFalse (by simp)
  | .error _, .ok _ => .isFalse (by simp)

/-- Embedding of `struct GpuData`.  `temperature` and `utilizationGpu`
are `unsigned int`; `memoryTotal` and `memoryUsed` are `double`
(modelled over `ℚ`). -/
structure GpuData where
  name : String
  driverVersion : String
  temperature : ℕ
  memoryTotal : ℚ
  memoryUsed : ℚ
  utilizationGpu : ℕ
deriving Repr, DecidableEq

/-- The values found in the scalar members of the local `GpuData data;`
in `parseGpuData` before anything is assigned to them.  The local is
default-initialized, so its `std::string` members are empty but its
scalar members are left indeterminate; a `GpuScalars` argument stands for
whatever happens to be in that stack memory. -/
structure GpuScalars where
  temperature : ℕ
  memoryTotal : ℚ
  memoryUsed : ℚ
  utilizationGpu : ℕ
deriving Repr, DecidableEq

/-- Embedding of `parseGpuData`.  `init` models the indeterminate initial
contents of the local struct's scalar members (see `GpuScalars`).  The
`Except` propagates the `std::stoul` exceptions thrown when a guarded
sub-record is present but a numeric child below it is missing or
non-numeric. -/
def parseGpuData (init : GpuScalars) (doc : List XmlNode) :
    Except Unit GpuData :=
  match childOf (docChild doc "nvidia_smi_log") "gpu" with
  | none =>
    .ok ⟨"", "", init.temperature, init.memoryTotal, init.memoryUsed,
      init.utilizationGpu⟩
  | some gpu =>
    let name := textOf (childOf (some gpu) "product_name")
    let driver := textOf (childOf (docChild doc "nvidia_smi_log")
      "driver_version")
    match (match childOf (childOf (some gpu) "temperature") "gpu_temp" with
      | none => Except.ok init.temperature
      | some tn => stoul tn.pcdata) with
    | .error e => .error e
    | .ok temperature =>
      match (match childOf (some gpu) "fb_memory_usage" with
        | none => Except.ok (init.memoryTotal, init.memoryUsed)
        | some mn =>
          match stoul (textOf (childOf (some mn) "total")) with
          | .error e => .error e
          | .ok total =>
            match stoul (textOf (childOf (some mn) "used")) with
            | .error e => .error e
            | .ok used => .ok ((total : ℚ) / 1024, (used : ℚ) / 1024)) with
      | .error e => .error e
      | .ok (memoryTotal, memoryUsed) =>
        match (match childOf (some gpu) "utilization" with
          | none => Except.ok init.utilizationGpu
          | some un => stoul (textOf (childOf (some un) "gpu_util"))) with
        | .error e => .error e
        | .ok utilizationGpu =>
          .ok ⟨name, driver, temperature, memoryTotal, memoryUsed,
            utilizationGpu⟩

/-- What the GPU-retrieval part of a refresh cycle receives from the
environment: either `getXmlGpuData`/`exec_no_console` throws, or it
returns a captured output string that is empty, or non-empty but rejected
by `pugi::xml_document::load_string`, or non-empty and well-formed with
the given element tree. -/
inductive GpuRaw where
  | execFailure
  | emptyOutput
  | malformed
  | wellFormed (doc : List XmlNode)

/-- The global GPU state: `g_gpuData` and `g_gpuDataAvailable`. -/
structure GpuState where
  data : GpuData
  available : Bool
deriving Repr, DecidableEq

/-- The GPU part of `refreshAllData` (its `try`/`catch` block): on an
exception from retrieval or from `parseGpuData` (caught by the handler),
on empty output, or on a parse error from `load_string`, only clear
`g_gpuDataAvailable`; on a well-formed document whose `parseGpuData` call
returns, store the parsed record and set the flag.  `junk` models the
indeterminate scalars of `parseGpuData`'s local (see `GpuScalars`). -/
def refreshGpu (junk : GpuScalars) (st : GpuState) (raw : GpuRaw) :
    GpuState :=
  match raw with
  | .execFailure => ⟨st.data, false⟩
  | .emptyOutput => ⟨st.data, false⟩
  | .malformed => ⟨st.data, false⟩
  | .wellFormed doc =>
    match parseGpuData junk doc with
    | .ok d => ⟨d, true⟩
    | .error _ => ⟨st.data, false⟩

/-- Rendering of a `double` under `std::fixed` / `std::setprecision(2)`,
idealized over `ℚ`: the magnitude rounded to the nearest hundredth
(`m = ⌊|q| * 100 + 1/2⌋`, computed here by integer arithmetic on
numerator and denominator), written with a sign and exactly two digits
after the decimal point. -/
def fixed2 (q : ℚ) : String :=
  let m : ℕ := (200 * q.num.natAbs + q.den) / (2 * q.den)
  let f : ℕ := m % 100
  (if q.num < 0 then "-" else "") ++ toString (m / 100) ++ "." ++
    String.mk [Char.ofNat (48 + f / 10), Char.ofNat (48 + f % 10)]

/-- The report `refreshAllData` builds in its `std::ostringstream`:
the CPU/RAM block (replaced by an error line when `cpuUsage < 0`)
followed by the GPU block (populated when `g_gpuDataAvailable`, a
not-available message otherwise).  `double` insertions render through
`fixed2`; `unsigned int` insertions render as plain integers. -/
def formatStats (cpuUsage ramUsage : ℚ) (g : GpuState) : String :=
  (if 0 ≤ cpuUsage then
    "CPU Usage: " ++ fixed2 cpuUsage ++ "%\n" ++
      "RAM Usage: " ++ fixed2 ramUsage ++ " GB\n"
  else
    "Error getting CPU/RAM usage.\n") ++
  (if g.available then
    "\n--- GPU Stats ---\n" ++
      "GPU: " ++ g.data.name ++ "\n" ++
      "Temp: " ++ toString g.data.temperature ++ " C\n" ++
      "VRAM: " ++ fixed2 g.data.memoryUsed ++ " GB / " ++
        fixed2 g.data.memoryTotal ++ " GB\n" ++
      "GPU Util: " ++ toString g.data.utilizationGpu ++ " %"
  else
    "\n--- GPU Stats ---\n" ++ "GPU data not available or initializing...")

/-- The `strncpy_s(..., _TRUNCATE)` write into the 1024-byte
`g_statsText` buffer keeps at most 1023 characters of the report. -/
def truncateStats (s : String) : String := ⟨s.data.take 1023⟩

/-- The whole mutable program state: the CPU sampler statics, the global
GPU record and flag, and the display buffer `g_statsText`. -/
structure FullState where
  cpu : CpuState
  gpu : GpuState
  statsText : String
deriving Repr, DecidableEq

/-- The program state at process start: statics and globals are
zero-initialized (`firstCall = true`, counters 0, `g_gpuData` all zero /
empty, `g_gpuDataAvailable = false`), and `g_statsText` holds
`"Initializing..."`. -/
def initState : FullState :=
  ⟨⟨0, 0, 0, true⟩, ⟨⟨"", "", 0, 0, 0, 0⟩, false⟩, "Initializing..."⟩

/-- Embedding of `refreshAllData`: sample the CPU (with the given
`GetSystemTimes` outcome), compute RAM usage from the given memory
status, run the GPU retrieval/parse step on the given captured outcome,
format the report and store its truncation into the display buffer. -/
def refreshAllData (snap : Option Snapshot) (ullTotalPhys ullAvailPhys : ℕ)
    (raw : GpuRaw) (junk : GpuScalars) (st : FullState) : FullState :=
  let (cpuUsage, cpuSt) := getCurrentCpuUsage snap st.cpu
  let ramUsage := getCurrentRamUsage ullTotalPhys ullAvailPhys
  let gpuSt := refreshGpu junk st.gpu raw
  ⟨cpuSt, gpuSt, truncateStats (formatStats cpuUsage ramUsage gpuSt)⟩

/-- The window messages `WndProc` reacts to, each carrying the
environment inputs consumed while handling it.  `WM_CREATE` performs one
bare `getCurrentCpuUsage` call; `WM_TIMER` and `WM_EXITSIZEMOVE` run
`refreshAllData`; the remaining messages touch none of the modelled
state. -/
inductive WinEvent where
  | create (snap : Option Snapshot)
  | timer (snap : Option Snapshot) (ullTotalPhys ullAvailPhys : ℕ)
      (raw : GpuRaw) (junk : GpuScalars)
  | exitSizeMove (snap : Option Snapshot) (ullTotalPhys ullAvailPhys : ℕ)
      (raw : GpuRaw) (junk : GpuScalars)
  | enterSizeMove
  | paint
  | otherMessage

/-- Whether a `getCurrentCpuUsage` call made from this state with this
`GetSystemTimes` outcome takes the suppressed-spike first-invocation
branch (the branch that installs the baseline and returns exactly 0). -/
def tookFirstBranch (snap : Option Snapshot) (st : CpuState) : Bool :=
  snap.isSome && st.firstCall

/-- One step of `WndProc` on the modelled state.  Besides the next state
it reports, for each `refreshAllData` call performed, whether that
refresh's CPU sample took the first-invocation branch. -/
def wndStep (st : FullState) : WinEvent → FullState × List Bool
  | .create snap =>
    (⟨(getCurrentCpuUsage snap st.cpu).2, st.gpu, st.statsText⟩, [])
  | .timer snap t a raw junk =>
    (refreshAllData snap t a raw junk st, [tookFirstBranch snap st.cpu])
  | .exitSizeMove snap t a raw junk =>
    (refreshAllData snap t a raw junk st, [tookFirstBranch snap st.cpu])
  | .enterSizeMove => (st, [])
  | .paint => (st, [])
  | .otherMessage => (st, [])

/-- Run `WndProc` over a sequence of messages, collecting the
first-branch reports of all refreshes performed. -/
def runEvents (st : FullState) : List WinEvent → FullState × List Bool
  | [] => (st, [])
  | e :: es =>
    let (st', fs) := wndStep st e
    let (st'', fs') := runEvents st' es
    (st'', fs ++ fs')

/-- The environment `getNVSMIPath` consults: the registry value
`HKLM\SOFTWARE\NVIDIA Corporation\Global\NVSMI\Path` (`none` when the key
or value cannot be read), `PathFileExistsA` as a predicate on paths, the
`GetModuleFileNameA` result for the running executable, and the `PATH`
environment variable (`none` when `_dupenv_s` yields nothing). -/
structure PathEnv where
  registryValue : Option String
  fileOk : String → Bool
  exeModulePath : String
  pathVar : Option String

/-- Append a trailing backslash when the directory is non-empty and does
not already end in one (the `if (!path.empty() && path.back() != '\\')`
pattern used for both the registry path and each `PATH` entry). -/
def dirSlash (d : String) : String :=
  if d ≠ "" ∧ d.back ≠ '\\' then d ++ "\\" else d

/-- Embedding of `getNVSMIPathFromRegistry`: build
`<value>\nvidia-smi.exe` from the registry value and return it when that
file exists, `""` otherwise (also `""` when the registry read fails). -/
def getNVSMIPathFromRegistry (env : PathEnv) : String :=
  match env.registryValue with
  | none => ""
  | some v =>
    let path := dirSlash v ++ "nvidia-smi.exe"
    if env.fileOk path then path else ""

/-- The tokens `std::getline(iss, dir, ';')` produces from a `PATH`
string: split on `';'`, except that an empty string yields no token and a
trailing `';'` yields no trailing empty token. -/
def pathTokens (s : String) : List String :=
  if s = "" then []
  else if s.endsWith ";" then (s.splitOn ";").dropLast
  else s.splitOn ";"

/-- Embedding of `findInPath`: scan the `PATH` entries in order, return
the first `<dir>\<exeName>` that exists, `""` when none does or the
variable is unset. -/
def findInPath (env : PathEnv) (exeName : String) : String :=
  match env.pathVar with
  | none => ""
  | some pv =>
    ((pathTokens pv).map (fun d => dirSlash d ++ exeName)).find?
      env.fileOk |>.getD ""

/-- The hard-coded `commonPaths` list of well-known install locations. -/
def commonPaths : List String :=
  ["C:\\Program Files\\NVIDIA Corporation\\NVSMI\\nvidia-smi.exe",
   "C:\\Windows\\System32\\nvidia-smi.exe",
   "C:\\Windows\\Sysnative\\nvidia-smi.exe"]

/-- Step 3 of the discovery: `GetModuleFileNameA`, then
`find_last_of("\\/")`; when a separator exists, the candidate is the
executable's directory (up to and including the separator) plus
`nvidia-smi.exe`; when none does, the step is skipped. -/
def exeDirCandidate (exePath : String) : Option String :=
  match (exePath.data.reverse).findIdx? (fun c => c == '\\' || c == '/') with
  | none => none
  | some k =>
    some (⟨exePath.data.take (exePath.data.length - k)⟩ ++ "nvidia-smi.exe")

/-- Embedding of `getNVSMIPath`: registry first, then the well-known
locations, then the executable's own directory, then `PATH`, then the
bare name `nvidia-smi.exe`. -/
def getNVSMIPath (env : PathEnv) : String :=
  let path := getNVSMIPathFromRegistry env
  if path ≠ "" then path
  else
    match commonPaths.find? env.fileOk with
    | some p => p
    | none =>
      let step45 :=
        let path := findInPath env "nvidia-smi.exe"
        if path ≠ "" then path else "nvidia-smi.exe"
      match exeDirCandidate env.exeModulePath with
      | some cand => if env.fileOk cand then cand else step45
      | none => step45

/-- The candidate path derived from the registry value, before the
existence check. -/
def regCand (env : PathEnv) : Option String :=
  env.registryValue.map fun v => dirSlash v ++ "nvidia-smi.exe"

/-- The candidate paths derived from the `PATH` entries, in order. -/
def pathCands (env : PathEnv) : List String :=
  (env.pathVar.map fun pv =>
    (pathTokens pv).map fun d => dirSlash d ++ "nvidia-smi.exe").getD []

/-- Modelled from the spec: the ordered candidate list the spec says tool
discovery walks — the registry-derived path (when the registry value is
readable), the well-known absolute install paths, the executable's own
directory, each `PATH` entry, in that order. -/
def specCandidates (env : PathEnv) : List String :=
  (regCand env).toList ++ commonPaths ++
    (exeDirCandidate env.exeModulePath).toList ++ pathCands env

/-- Modelled from the spec: discovery returns the first existing
candidate, falling back to the bare executable name. -/
def specFirstExisting (env : PathEnv) : String :=
  ((specCandidates env).find? env.fileOk).getD "nvidia-smi.exe"

/-- `pat` occurs contiguously inside `s`. -/
def strContains (pat s : String) : Prop := pat.data <:+: s.data

/-- `pat` is a prefix of `s`. -/
def strPrefix (pat s : String) : Prop := pat.data <+: s.data

/-- `pat` is a suffix of `s`. -/
def strSuffix (pat s : String) : Prop := pat.data <:+ s.data

instance (pat s : String) : Decidable (strContains pat s) :=
  inferInstanceAs (Decidable (pat.data <:+: s.data))

instance (pat s : String) : Decidable (strPrefix pat s) :=
  inferInstanceAs (Decidable (pat.data <+: s.data))

instance (pat s : String) : Decidable (strSuffix pat s) :=
  inferInstanceAs (Decidable (pat.data <:+ s.data))

/-- A well-formed `nvidia-smi -q -x` document with every field the
program reads present: product name, driver version, `gpu_temp`,
`fb_memory_usage` `total`/`used`, and `gpu_util`, the numeric ones given
by their PCDATA strings. -/
def fullGpuDoc (name driver tempTxt totalTxt usedTxt utilTxt : String) :
    List XmlNode :=
  [.mk "nvidia_smi_log" ""
    [.mk "driver_version" driver [],
     .mk "gpu" ""
       [.mk "product_name" name [],
        .mk "temperature" "" [.mk "gpu_temp" tempTxt []],
        .mk "fb_memory_usage" ""
          [.mk "total" totalTxt [], .mk "used" usedTxt []],
        .mk "utilization" "" [.mk "gpu_util" utilTxt []]]]]

/-- The report built by a refresh whose GPU retrieval captured the
spec's end-to-end sample document (`gpu_temp=65`, `total=24576`,
`used=4096`, `gpu_util=12`), with CPU at 10 % and RAM at 8 GB. -/
def sampleReport : String :=
  formatStats 10 8 (refreshGpu ⟨0, 0, 0, 0⟩ ⟨⟨"", "", 0, 0, 0, 0⟩, false⟩
    (.wellFormed (fullGpuDoc "NVIDIA GeForce RTX 4090" "551.61" "65" "24576"
      "4096" "12")))

set_option maxRecDepth 16384

/-! Helper lemmas about the string predicates and the path model. -/

theorem strPrefix_append (a b : String) : strPrefix a (a ++ b) :=
  ⟨b.data, (String.data_append a b).symm⟩

theorem strPrefix_cancel (a : String) {b c : String} (h : strPrefix b c) :
    strPrefix (a ++ b) (a ++ c) := by
  obtain ⟨t, ht⟩ := h
  exact ⟨t, by simp only [String.data_append, List.append_assoc, ht]⟩

theorem strSuffix_refl (a : String) : strSuffix a a := ⟨[], by simp⟩

theorem strSuffix_append_right (pat a b : String) (h : strSuffix pat b) :
    strSuffix pat (a ++ b) := by
  obtain ⟨t, ht⟩ := h
  exact ⟨a.data ++ t, by simp only [String.data_append, List.append_assoc, ht]⟩

theorem strContains_append_right (pat a b : String) (h : strContains pat b) :
    strContains pat (a ++ b) := by
  obtain ⟨s, t, hst⟩ := h
  exact ⟨a.data ++ s, t, by simp only [String.data_append, List.append_assoc,
    ← hst, List.append_assoc]⟩

theorem strContains_append_left (pat a b : String) (h : strContains pat a) :
    strContains pat (a ++ b) := by
  obtain ⟨s, t, hst⟩ := h
  exact ⟨s, t ++ b.data, by simp only [String.data_append, ← hst,
    List.append_assoc]⟩

theorem strContains_of_strPrefix (pat s : String) (h : strPrefix pat s) :
    strContains pat s := by
  obtain ⟨t, ht⟩ := h
  exact ⟨[], t, by simpa using ht⟩

theorem digitChar_isDigit (k : ℕ) (hk : k < 10) :
    (Char.ofNat (48 + k)).isDigit = true := by
  interval_cases k <;> decide

theorem fixed2_two_decimals (q : ℚ) :
    ∃ (p : String) (a b : Char), a.isDigit = true ∧ b.isDigit = true ∧
      fixed2 q = p ++ ⟨['.', a, b]⟩ := by
  refine ⟨(if q.num < 0 then "-" else "") ++
      toString ((200 * q.num.natAbs + q.den) / (2 * q.den) / 100),
    Char.ofNat (48 + (200 * q.num.natAbs + q.den) / (2 * q.den) % 100 / 10),
    Char.ofNat (48 + (200 * q.num.natAbs + q.den) / (2 * q.den) % 100 % 10),
    digitChar_isDigit _ (by omega), digitChar_isDigit _ (by omega), ?_⟩
  simp only [fixed2]
  apply String.ext
  simp [String.data_append]

theorem append_exe_ne_empty (a : String) : a ++ "nvidia-smi.exe" ≠ "" := by
  intro h
  have h2 := congrArg String.data h
  simp [String.data_append] at h2

theorem findInPath_eq (env : PathEnv) :
    findInPath env "nvidia-smi.exe" =
      ((pathCands env).find? env.fileOk).getD "" := by
  cases h : env.pathVar <;> simp [findInPath, pathCands, h]

theorem pathCands_shape (env : PathEnv) (p : String) (hp : p ∈ pathCands env) :
    ∃ d, p = dirSlash d ++ "nvidia-smi.exe" := by
  cases h : env.pathVar with
  | none => simp [pathCands, h] at hp
  | some pv =>
    simp [pathCands, h] at hp
    obtain ⟨d, _, rfl⟩ := hp
    exact ⟨d, rfl⟩

theorem step45_eq (env : PathEnv) :
    (let path := findInPath env "nvidia-smi.exe";
     if path ≠ "" then path else "nvidia-smi.exe") =
      ((pathCands env).find? env.fileOk).getD "nvidia-smi.exe" := by
  cases hf : (pathCands env).find? env.fileOk with
  | none => simp [findInPath_eq, hf]
  | some p =>
    obtain ⟨d, rfl⟩ := pathCands_shape env p (List.mem_of_find?_eq_some hf)
    simp [findInPath_eq, hf, append_exe_ne_empty (dirSlash d)]

theorem afterRegistry_eq (env : PathEnv) :
    (match commonPaths.find? env.fileOk with
     | some p => p
     | none =>
       let step45 :=
         let path := findInPath env "nvidia-smi.exe"
         if path ≠ "" then path else "nvidia-smi.exe"
       match exeDirCandidate env.exeModulePath with
       | some cand => if env.fileOk cand then cand else step45
       | none => step45) =
      ((commonPaths ++ (exeDirCandidate env.exeModulePath).toList ++
        pathCands env).find? env.fileOk).getD "nvidia-smi.exe" := by
  cases hcp : commonPaths.find? env.fileOk with
  | some p => simp [List.find?_append, hcp]
  | none =>
    simp only [List.find?_append, hcp, Option.none_or]
    cases hexe : exeDirCandidate env.exeModulePath with
    | none => simpa using step45_eq env
    | some cand =>
      cases hfo : env.fileOk cand with
      | true => simp [hfo, List.find?_cons_of_pos]
      | false => simpa [hfo, List.find?_cons_of_neg] using step45_eq env

theorem firstCall_after (snap : Option Snapshot) (st : CpuState)
    (h : st.firstCall = false) :
    ((getCurrentCpuUsage snap st).2).firstCall = false := by
  cases snap with
  | none => exact h
  | some s =>
    simp [getCurrentCpuUsage, h]
    split <;> rfl

theorem refreshAllData_cpu (snap : Option Snapshot) (t a : ℕ) (raw : GpuRaw)
    (junk : GpuScalars) (st : FullState) :
    (refreshAllData snap t a raw junk st).cpu =
      (getCurrentCpuUsage snap st.cpu).2 := rfl

theorem runEvents_no_first (evts : List WinEvent) :
    ∀ st : FullState, st.cpu.firstCall = false →
      ((runEvents st evts).2).all (fun b => !b) = true := by
  induction evts with
  | nil => intro st h; rfl
  | cons e es ih =>
    intro st h
    cases e with
    | create snap =>
      simpa [runEvents, wndStep] using ih _ (firstCall_after snap st.cpu h)
    | timer snap t a raw junk =>
      simpa [runEvents, wndStep, tookFirstBranch, h] using
        ih (refreshAllData snap t a raw junk st)
          (by rw [refreshAllData_cpu]; exact firstCall_after snap st.cpu h)
    | exitSizeMove snap t a raw junk =>
      simpa [runEvents, wndStep, tookFirstBranch, h] using
        ih (refreshAllData snap t a raw junk st)
          (by rw [refreshAllData_cpu]; exact firstCall_after snap st.cpu h)
    | enterSizeMove => simpa [runEvents, wndStep] using ih _ h
    | paint => simpa [runEvents, wndStep] using ih _ h
    | otherMessage => simpa [runEvents, wndStep] using ih _ h

/-! Claim theorems. -/

/-- Claim C1, counterexample: on a non-first call whose idle-time delta
(10) exceeds the kernel-plus-user delta (1), `getCurrentCpuUsage` returns
a negative percentage (−900) even though the kernel-plus-user delta is
strictly positive, so the claimed bound usage ∈ [0,100] fails as stated:
the code never checks `idleTimeDelta ≤ totalActivityTime`. -/
theorem cpuUsage_out_of_range_at_inflated_idle :
    0 < totalActivityTime ⟨10, 1, 0⟩ ⟨0, 0, 0, false⟩ ∧
      (getCurrentCpuUsage (some ⟨10, 1, 0⟩) ⟨0, 0, 0, false⟩).1 < 0 := by
  constructor
  · decide
  · norm_num [getCurrentCpuUsage, totalActivityTime, idleTimeDelta,
      kernelTimeDelta, userTimeDelta, add64, sub64, u64]

/-- Claim C1, amended: on every non-first call with a strictly positive
kernel-plus-user delta whose idle-time delta does not exceed it (which
`GetSystemTimes` guarantees, because Windows kernel time includes idle
time), the returned usage percentage lies in [0, 100]. -/
theorem cpuUsage_in_range_of_idle_le_activity (s : Snapshot) (st : CpuState)
    (hfc : st.firstCall = false)
    (hpos : 0 < totalActivityTime s st)
    (hle : idleTimeDelta s st ≤ totalActivityTime s st) :
    0 ≤ (getCurrentCpuUsage (some s) st).1 ∧
      (getCurrentCpuUsage (some s) st).1 ≤ 100 := by
  have hne : totalActivityTime s st ≠ 0 := hpos.ne'
  simp only [getCurrentCpuUsage, hfc, Bool.false_eq_true, if_false, hne,
    ite_false]
  have htQ : (0 : ℚ) < (totalActivityTime s st : ℚ) := by exact_mod_cast hpos
  have h1 : (idleTimeDelta s st : ℚ) / (totalActivityTime s st : ℚ) ≤ 1 := by
    rw [div_le_one htQ]
    exact_mod_cast hle
  have h2 : (0 : ℚ) ≤
      (idleTimeDelta s st : ℚ) / (totalActivityTime s st : ℚ) := by
    positivity
  constructor <;> nlinarith

/-- Witness for the amended C1 theorem at a concrete sample. -/
theorem cpuUsage_in_range_witness :
    0 ≤ (getCurrentCpuUsage (some ⟨1, 2, 0⟩) ⟨0, 0, 0, false⟩).1 ∧
      (getCurrentCpuUsage (some ⟨1, 2, 0⟩) ⟨0, 0, 0, false⟩).1 ≤ 100 :=
  cpuUsage_in_range_of_idle_le_activity ⟨1, 2, 0⟩ ⟨0, 0, 0, false⟩ rfl
    (by decide) (by decide)

/-- Claim C7: every call to `getCurrentCpuUsage` in which `GetSystemTimes`
delivers a snapshot overwrites the three baseline counters with the
snapshot's values (and clears `firstCall`), on the first-call branch, the
zero-delta branch and the ordinary branch alike. -/
theorem cpu_baselines_overwritten (s : Snapshot) (st : CpuState) :
    (getCurrentCpuUsage (some s) st).2 = ⟨s.idle, s.kernel, s.user, false⟩ := by
  cases h : st.firstCall
  · simp [getCurrentCpuUsage, h]
    split <;> rfl
  · simp [getCurrentCpuUsage, h]

/-- Claim C9: on a non-first call whose kernel-plus-user delta is zero,
`getCurrentCpuUsage` returns 0 via the explicit guard, so the division is
never reached. -/
theorem cpu_zero_activity_returns_zero (s : Snapshot) (st : CpuState)
    (hfc : st.firstCall = false)
    (hz : totalActivityTime s st = 0) :
    (getCurrentCpuUsage (some s) st).1 = 0 := by
  simp [getCurrentCpuUsage, hfc, hz]

/-- Witness for the C9 theorem: an identical consecutive snapshot gives a
zero kernel-plus-user delta and result 0. -/
theorem cpu_zero_activity_witness :
    (getCurrentCpuUsage (some ⟨5, 5, 5⟩) ⟨5, 5, 5, false⟩).1 = 0 :=
  cpu_zero_activity_returns_zero ⟨5, 5, 5⟩ ⟨5, 5, 5, false⟩ rfl (by decide)

/-- Claim C2, counterexample: a refresh whose captured output is a
well-formed document missing the `nvidia_smi_log/gpu` record sets the
availability flag to TRUE (with a default-valued record), not false as
claimed: `refreshAllData` only checks that `load_string` succeeded. -/
theorem gpu_missing_record_marks_available :
    (refreshGpu ⟨0, 0, 0, 0⟩ ⟨⟨"", "", 0, 0, 0, 0⟩, false⟩
      (.wellFormed [.mk "nvidia_smi_log" "" []])).available = true := rfl

/-- Claim C2, amended: a refresh whose GPU retrieval throws, or captures
empty output, or captures output that the XML parser rejects, marks GPU
data unavailable and returns normally (the refresh is a total function:
exceptions are caught at its boundary); but a well-formed document
missing the `nvidia_smi_log/gpu` record instead marks the data AVAILABLE,
storing a record with empty name and driver strings and with the scalar
fields left at the local struct's indeterminate initial values. -/
theorem gpu_refresh_unavailable_cases (junk : GpuScalars) (st : GpuState) :
    (refreshGpu junk st .execFailure).available = false ∧
    (refreshGpu junk st .emptyOutput).available = false ∧
    (refreshGpu junk st .malformed).available = false ∧
    ∀ doc, childOf (docChild doc "nvidia_smi_log") "gpu" = none →
      refreshGpu junk st (.wellFormed doc) =
        ⟨⟨"", "", junk.temperature, junk.memoryTotal, junk.memoryUsed,
          junk.utilizationGpu⟩, true⟩ := by
  refine ⟨rfl, rfl, rfl, fun doc h => ?_⟩
  simp [refreshGpu, parseGpuData, h]

/-- Witness for the amended C2 theorem at concrete inputs. -/
theorem gpu_refresh_unavailable_witness :
    (refreshGpu ⟨0, 0, 0, 0⟩ ⟨⟨"", "", 0, 0, 0, 0⟩, false⟩
      .execFailure).available = false ∧
    refreshGpu ⟨0, 0, 0, 0⟩ ⟨⟨"", "", 0, 0, 0, 0⟩, false⟩ (.wellFormed []) =
      ⟨⟨"", "", 0, 0, 0, 0⟩, true⟩ :=
  ⟨(gpu_refresh_unavailable_cases ⟨0, 0, 0, 0⟩ ⟨⟨"", "", 0, 0, 0, 0⟩, false⟩).1,
   (gpu_refresh_unavailable_cases ⟨0, 0, 0, 0⟩
      ⟨⟨"", "", 0, 0, 0, 0⟩, false⟩).2.2.2 [] rfl⟩

/-- Claim C3, counterexample: a GPU record whose `fb_memory_usage`
sub-record is present but childless makes `parseGpuData` throw (the
`std::stoul` of the missing `total` child's empty text), so "parseGpuData
does not fail" is false for partially-missing sub-records; and when the
guarded sub-records are wholly absent the scalar fields keep the local
struct's indeterminate initial values (here 7/3/2/9), not zero. -/
theorem parseGpuData_partial_record_fails :
    parseGpuData ⟨0, 0, 0, 0⟩
      [.mk "nvidia_smi_log" ""
        [.mk "gpu" "" [.mk "fb_memory_usage" "" []]]] = .error () ∧
    parseGpuData ⟨7, 3, 2, 9⟩
      [.mk "nvidia_smi_log" "" [.mk "gpu" "" []]] = .ok ⟨"", "", 7, 3, 2, 9⟩ ∧
    parseGpuData ⟨7, 3, 2, 9⟩
      [.mk "nvidia_smi_log" "" [.mk "gpu" "" []]] ≠ .ok ⟨"", "", 0, 0, 0, 0⟩ := by
  refine ⟨?_, ?_, ?_⟩
  · simp [parseGpuData, childOf, docChild, textOf, List.find?,
      XmlNode.tagName, XmlNode.pcdata, XmlNode.children, stoul]
  · simp [parseGpuData, childOf, docChild, textOf, List.find?,
      XmlNode.tagName, XmlNode.pcdata, XmlNode.children]
  · simp [parseGpuData, childOf, docChild, textOf, List.find?,
      XmlNode.tagName, XmlNode.pcdata, XmlNode.children]

/-- Claim C3, amended: when the GPU record exists and the `gpu_temp`
node, the `fb_memory_usage` sub-record and the `utilization` sub-record
are each wholly absent, `parseGpuData` succeeds; `name` and
`driverVersion` take the (possibly empty) element texts and the four
scalar fields keep the local struct's indeterminate initial values (not
necessarily zero).  A PRESENT `fb_memory_usage` or `utilization`
sub-record missing a numeric child instead throws out of `parseGpuData`
(caught later at the refresh boundary). -/
theorem parseGpuData_absent_records_defaults (junk : GpuScalars)
    (doc : List XmlNode) (gpu : XmlNode)
    (hg : childOf (docChild doc "nvidia_smi_log") "gpu" = some gpu)
    (ht : childOf (childOf (some gpu) "temperature") "gpu_temp" = none)
    (hm : childOf (some gpu) "fb_memory_usage" = none)
    (hu : childOf (some gpu) "utilization" = none) :
    parseGpuData junk doc =
      .ok ⟨textOf (childOf (some gpu) "product_name"),
        textOf (childOf (docChild doc "nvidia_smi_log") "driver_version"),
        junk.temperature, junk.memoryTotal, junk.memoryUsed,
        junk.utilizationGpu⟩ := by
  simp [parseGpuData, hg, ht, hm, hu]

/-- Witness for the amended C3 theorem at a concrete document. -/
theorem parseGpuData_absent_records_witness :
    parseGpuData ⟨7, 3, 2, 9⟩
      [.mk "nvidia_smi_log" "" [.mk "gpu" "" []]] =
      .ok ⟨"", "", 7, 3, 2, 9⟩ :=
  parseGpuData_absent_records_defaults ⟨7, 3, 2, 9⟩ _ (.mk "gpu" "" [])
    rfl rfl rfl rfl

/-- Claim C4: parsing a well-formed document with every field present
yields a record whose memory values are the raw MiB numbers divided by
1024, whose temperature and utilization are the raw integers, and whose
refresh marks GPU data available; and the spec's end-to-end sample
(`gpu_temp=65`, `total=24576`, `used=4096`, `gpu_util=12`) renders
Temp 65, VRAM "4.00 GB / 24.00 GB" and GPU Util "12 %". -/
theorem parseGpuData_full_document (junk : GpuScalars) (st : GpuState)
    (name driver tTxt totTxt uTxt gTxt : String) (t tot used util : ℕ)
    (ht : stoul tTxt = .ok t) (htot : stoul totTxt = .ok tot)
    (hused : stoul uTxt = .ok used) (hutil : stoul gTxt = .ok util) :
    parseGpuData junk (fullGpuDoc name driver tTxt totTxt uTxt gTxt) =
      .ok ⟨name, driver, t, (tot : ℚ) / 1024, (used : ℚ) / 1024, util⟩ ∧
    refreshGpu junk st
        (.wellFormed (fullGpuDoc name driver tTxt totTxt uTxt gTxt)) =
      ⟨⟨name, driver, t, (tot : ℚ) / 1024, (used : ℚ) / 1024, util⟩, true⟩ ∧
    strContains "Temp: 65 C" sampleReport ∧
    strContains "VRAM: 4.00 GB / 24.00 GB" sampleReport ∧
    strContains "GPU Util: 12 %" sampleReport := by
  have hp : parseGpuData junk (fullGpuDoc name driver tTxt totTxt uTxt gTxt) =
      .ok ⟨name, driver, t, (tot : ℚ) / 1024, (used : ℚ) / 1024, util⟩ := by
    simp [parseGpuData, fullGpuDoc, childOf, docChild, textOf, List.find?,
      XmlNode.tagName, XmlNode.pcdata, XmlNode.children, ht, htot, hused, hutil]
  have hsample : sampleReport =
      formatStats 10 8 ⟨⟨"NVIDIA GeForce RTX 4090", "551.61", 65,
        ((24576 : ℕ) : ℚ) / 1024, ((4096 : ℕ) : ℚ) / 1024, 12⟩, true⟩ := by
    have hp0 : parseGpuData ⟨0, 0, 0, 0⟩
        (fullGpuDoc "NVIDIA GeForce RTX 4090" "551.61" "65" "24576" "4096"
          "12") =
        .ok ⟨"NVIDIA GeForce RTX 4090", "551.61", 65,
          ((24576 : ℕ) : ℚ) / 1024, ((4096 : ℕ) : ℚ) / 1024, 12⟩ := by
      simp [parseGpuData, fullGpuDoc, childOf, docChild, textOf, List.find?,
        XmlNode.tagName, XmlNode.pcdata, XmlNode.children,
        show stoul "65" = .ok 65 by decide,
        show stoul "24576" = .ok 24576 by decide,
        show stoul "4096" = .ok 4096 by decide,
        show stoul "12" = .ok 12 by decide]
    simp [sampleReport, refreshGpu, hp0]
  have h24 : ((24576 : ℕ) : ℚ) / 1024 = 24 := by norm_num
  have h4 : ((4096 : ℕ) : ℚ) / 1024 = 4 := by norm_num
  rw [h24, h4] at hsample
  refine ⟨hp, by simp [refreshGpu, hp], ?_, ?_, ?_⟩ <;> rw [hsample] <;> decide

/-- Witness for the C4 theorem at the spec's sample values. -/
theorem parseGpuData_full_document_witness :
    parseGpuData ⟨0, 0, 0, 0⟩
      (fullGpuDoc "NVIDIA GeForce RTX 4090" "551.61" "65" "24576" "4096"
        "12") =
      .ok ⟨"NVIDIA GeForce RTX 4090", "551.61", 65,
        ((24576 : ℕ) : ℚ) / 1024, ((4096 : ℕ) : ℚ) / 1024, 12⟩ ∧
    strContains "VRAM: 4.00 GB / 24.00 GB" sampleReport :=
  ⟨(parseGpuData_full_document ⟨0, 0, 0, 0⟩ ⟨⟨"", "", 0, 0, 0, 0⟩, false⟩
      "NVIDIA GeForce RTX 4090" "551.61" "65" "24576" "4096" "12"
      65 24576 4096 12 (by decide) (by decide) (by decide) (by decide)).1,
   (parseGpuData_full_document ⟨0, 0, 0, 0⟩ ⟨⟨"", "", 0, 0, 0, 0⟩, false⟩
      "NVIDIA GeForce RTX 4090" "551.61" "65" "24576" "4096" "12"
      65 24576 4096 12 (by decide) (by decide) (by decide)
      (by decide)).2.2.2.1⟩

/-- Claim C5, counterexample: after a failed cycle (here: empty captured
output), the previously stored GPU metrics remain in `g_gpuData` — only
the availability flag is cleared — so "the previous stored value is
discarded / never survives a failed cycle" is false of the stored
record. -/
theorem gpu_previous_data_survives_failure :
    refreshGpu ⟨0, 0, 0, 0⟩ ⟨⟨"GPU X", "551.61", 65, 24, 4, 12⟩, true⟩
        .emptyOutput =
      ⟨⟨"GPU X", "551.61", 65, 24, 4, 12⟩, false⟩ ∧
    ("GPU X" : String) ≠ "" :=
  ⟨rfl, by decide⟩

/-- Claim C5, amended: a failed cycle (retrieval exception, empty output,
or parse failure — including an exception escaping `parseGpuData`) sets
the unavailable flag but leaves the previously stored metrics in place;
a cycle whose parse returns replaces the stored record wholesale; and
the report renderer ignores the stored record entirely whenever the flag
is false, so the surviving stale metrics are never displayed. -/
theorem gpu_update_semantics (junk : GpuScalars) (st : GpuState)
    (raw : GpuRaw) :
    ((raw = .execFailure ∨ raw = .emptyOutput ∨ raw = .malformed) →
      refreshGpu junk st raw = ⟨st.data, false⟩) ∧
    (∀ doc d, raw = .wellFormed doc → parseGpuData junk doc = .ok d →
      refreshGpu junk st raw = ⟨d, true⟩) ∧
    (∀ doc, raw = .wellFormed doc → parseGpuData junk doc = .error () →
      refreshGpu junk st raw = ⟨st.data, false⟩) ∧
    (∀ cpu ram d d', formatStats cpu ram ⟨d, false⟩ =
      formatStats cpu ram ⟨d', false⟩) := by
  refine ⟨?_, ?_, ?_, ?_⟩
  · rintro (rfl | rfl | rfl) <;> rfl
  · rintro doc d rfl hp
    simp [refreshGpu, hp]
  · rintro doc rfl hp
    simp [refreshGpu, hp]
  · intro cpu ram d d'
    simp [formatStats]

/-- Witness for the amended C5 theorem at concrete inputs. -/
theorem gpu_update_semantics_witness :
    refreshGpu ⟨0, 0, 0, 0⟩ ⟨⟨"GPU X", "551.61", 65, 24, 4, 12⟩, true⟩
        .malformed =
      ⟨⟨"GPU X", "551.61", 65, 24, 4, 12⟩, false⟩ ∧
    formatStats 10 8 ⟨⟨"GPU X", "551.61", 65, 24, 4, 12⟩, false⟩ =
      formatStats 10 8 ⟨⟨"", "", 0, 0, 0, 0⟩, false⟩ :=
  ⟨(gpu_update_semantics ⟨0, 0, 0, 0⟩
      ⟨⟨"GPU X", "551.61", 65, 24, 4, 12⟩, true⟩ .malformed).1
      (Or.inr (Or.inr rfl)),
   (gpu_update_semantics ⟨0, 0, 0, 0⟩
      ⟨⟨"GPU X", "551.61", 65, 24, 4, 12⟩, true⟩ .malformed).2.2.2
      10 8 ⟨"GPU X", "551.61", 65, 24, 4, 12⟩ ⟨"", "", 0, 0, 0, 0⟩⟩

/-- Claim C6: `getNVSMIPath` walks the candidates in strict priority
order — registry-derived path, well-known install paths, the
executable's own directory, each `PATH` entry — returning the first one
that exists and falling back to the bare executable name; in particular,
whenever the registry value is readable and its derived path exists, that
path is returned regardless of which later candidates also exist. -/
theorem getNVSMIPath_priority_order (env : PathEnv) :
    getNVSMIPath env = specFirstExisting env ∧
    ∀ v, env.registryValue = some v →
      env.fileOk (dirSlash v ++ "nvidia-smi.exe") = true →
      getNVSMIPath env = dirSlash v ++ "nvidia-smi.exe" := by
  constructor
  case right =>
    intro v hv hfo
    simp [getNVSMIPath, getNVSMIPathFromRegistry, hv, hfo,
      append_exe_ne_empty (dirSlash v)]
  case left =>
    unfold getNVSMIPath getNVSMIPathFromRegistry specFirstExisting
      specCandidates regCand
    cases hreg : env.registryValue with
    | none =>
      simp only [Option.map_none', Option.toList_none, List.nil_append]
      exact afterRegistry_eq env
    | some v =>
      simp only [Option.map_some', Option.toList_some, List.cons_append]
      cases hfo : env.fileOk (dirSlash v ++ "nvidia-smi.exe") with
      | true =>
        simp [hfo, append_exe_ne_empty (dirSlash v), List.find?_cons_of_pos]
      | false =>
        simp only [hfo, ite_false, Bool.false_eq_true, not_false_iff, ne_eq,
          not_true_eq_false, if_false]
        rw [List.find?_cons_of_neg _ (by simp [hfo])]
        exact afterRegistry_eq env

/-- Witness for the C6 theorem: with a readable registry entry whose
derived path exists, that path wins although a well-known install path
also exists. -/
theorem getNVSMIPath_priority_witness :
    getNVSMIPath ⟨some "D:\\nv", fun p => p == "D:\\nv\\nvidia-smi.exe" ||
        p == "C:\\Windows\\System32\\nvidia-smi.exe", "C:\\app\\stats.exe",
        none⟩ =
      dirSlash "D:\\nv" ++ "nvidia-smi.exe" :=
  (getNVSMIPath_priority_order _).2 "D:\\nv" rfl (by decide)

/-- Claim C8, counterexample: the report renders the GPU temperature as
a bare integer ("Temp: 65 C"), not with two decimal places ("Temp: 65.00
C" never occurs), so "two decimal places for ALL numeric fields" is
false: `std::setprecision(2)` affects only the `double` insertions, while
`temperature` and `utilizationGpu` are `unsigned int`. -/
theorem format_integer_fields_no_decimals :
    strContains ("Temp: " ++ toString (65 : ℕ) ++ " C")
      (formatStats 10 8 ⟨⟨"X", "", 65, 24, 4, 12⟩, true⟩) ∧
    ¬ strContains ("Temp: " ++ fixed2 65 ++ " C")
      (formatStats 10 8 ⟨⟨"X", "", 65, 24, 4, 12⟩, true⟩) := by
  constructor <;> decide

/-- Claim C8, amended: every report contains the GPU header;
the CPU/RAM block is always present — the two fixed-two-decimal values
when the CPU sample is non-negative, the error line otherwise; every
`double` field renders through `fixed2`, which always ends in a decimal
point followed by exactly two digits; and the GPU block is always
present, populated (with temperature and utilization as plain integers)
when available and the not-available message otherwise. -/
theorem format_report_structure (cpu ram : ℚ) (g : GpuState) :
    strContains "--- GPU Stats ---" (formatStats cpu ram g) ∧
    (0 ≤ cpu → strPrefix ("CPU Usage: " ++ fixed2 cpu ++ "%\n" ++
      "RAM Usage: " ++ fixed2 ram ++ " GB\n") (formatStats cpu ram g)) ∧
    (¬ 0 ≤ cpu →
      strPrefix "Error getting CPU/RAM usage.\n" (formatStats cpu ram g)) ∧
    (∀ q : ℚ, ∃ (p : String) (a b : Char), a.isDigit = true ∧
      b.isDigit = true ∧ fixed2 q = p ++ ⟨['.', a, b]⟩) ∧
    (g.available = true →
      strContains ("Temp: " ++ toString g.data.temperature ++ " C\n")
        (formatStats cpu ram g) ∧
      strContains ("VRAM: " ++ fixed2 g.data.memoryUsed ++ " GB / " ++
        fixed2 g.data.memoryTotal ++ " GB\n") (formatStats cpu ram g) ∧
      strSuffix ("GPU Util: " ++ toString g.data.utilizationGpu ++ " %")
        (formatStats cpu ram g)) ∧
    (g.available = false →
      strSuffix "GPU data not available or initializing..."
        (formatStats cpu ram g)) := by
  refine ⟨?_, ?_, ?_, fixed2_two_decimals, ?_, ?_⟩
  · cases hg : g.available with
    | true =>
      simp only [formatStats, hg, if_true, String.append_assoc]
      apply strContains_append_right
      apply strContains_append_left
      decide
    | false =>
      simp only [formatStats, hg, Bool.false_eq_true, if_false,
        String.append_assoc]
      apply strContains_append_right
      apply strContains_append_left
      decide
  · intro hc
    simp only [formatStats, if_pos hc]
    exact strPrefix_append _ _
  · intro hc
    simp only [formatStats, if_neg hc]
    exact strPrefix_append _ _
  · intro hg
    simp only [formatStats, hg, if_true, String.append_assoc]
    refine ⟨?_, ?_, ?_⟩
    · apply strContains_append_right
      apply strContains_append_right
      apply strContains_append_right
      apply strContains_append_right
      apply strContains_append_right
      apply strContains_of_strPrefix
      apply strPrefix_cancel
      apply strPrefix_cancel
      exact strPrefix_append _ _
    · apply strContains_append_right
      apply strContains_append_right
      apply strContains_append_right
      apply strContains_append_right
      apply strContains_append_right
      apply strContains_append_right
      apply strContains_append_right
      apply strContains_append_right
      apply strContains_of_strPrefix
      apply strPrefix_cancel
      apply strPrefix_cancel
      apply strPrefix_cancel
      apply strPrefix_cancel
      exact strPrefix_append _ _
    · apply strSuffix_append_right
      apply strSuffix_append_right
      apply strSuffix_append_right
      apply strSuffix_append_right
      apply strSuffix_append_right
      apply strSuffix_append_right
      apply strSuffix_append_right
      apply strSuffix_append_right
      apply strSuffix_append_right
      apply strSuffix_append_right
      apply strSuffix_append_right
      apply strSuffix_append_right
      apply strSuffix_append_right
      exact strSuffix_refl _
  · intro hg
    simp only [formatStats, hg, Bool.false_eq_true, if_false,
      String.append_assoc]
    apply strSuffix_append_right
    apply strSuffix_append_right
    exact strSuffix_refl _

/-- Witness for the amended C8 theorem at concrete states. -/
theorem format_report_structure_witness :
    strPrefix ("CPU Usage: " ++ fixed2 10 ++ "%\n" ++ "RAM Usage: " ++
      fixed2 8 ++ " GB\n") (formatStats 10 8 ⟨⟨"X", "", 65, 24, 4, 12⟩, true⟩) ∧
    strSuffix "GPU data not available or initializing..."
      (formatStats 10 8 ⟨⟨"X", "", 65, 24, 4, 12⟩, false⟩) ∧
    strContains ("Temp: " ++ toString (65 : ℕ) ++ " C\n")
      (formatStats 10 8 ⟨⟨"X", "", 65, 24, 4, 12⟩, true⟩) :=
  ⟨(format_report_structure 10 8 ⟨⟨"X", "", 65, 24, 4, 12⟩, true⟩).2.1
      (by norm_num),
   (format_report_structure 10 8 ⟨⟨"X", "", 65, 24, 4, 12⟩, false⟩).2.2.2.2.2
      rfl,
   ((format_report_structure 10 8 ⟨⟨"X", "", 65, 24, 4, 12⟩, true⟩).2.2.2.2.1
      rfl).1⟩

/-- Claim C10: in any message sequence that begins with `WM_CREATE`
delivering a successful system-time snapshot (the order Windows
guarantees, since `WM_CREATE` is handled during window creation, before
the message loop can deliver a timer tick), the baseline-installing
first-invocation branch of `getCurrentCpuUsage` is consumed by the
`WM_CREATE` handler's bare call, and no `refreshAllData` call in the rest
of the sequence ever takes that branch — so the suppressed-spike 0 is
never the CPU value a refresh writes into the display text. -/
theorem create_consumes_first_call (s : Snapshot) (evts : List WinEvent) :
    ((runEvents initState (.create (some s) :: evts)).2).all
      (fun b => !b) = true := by
  simp only [runEvents, wndStep]
  simpa using runEvents_no_first evts _ (by simp [initState, getCurrentCpuUsage])

end StatsDisplay
